import Mathlib

/-!
Verification of the Monitoring and Alerting Engine of the DeployWise
repository. The definitions below are a shallow embedding of
src/server/models/DeployedApp.js (schema methods updateHealthStatus,
createIncident, resolveIncident, shouldAutoRestart) and
src/server/services/MonitoringService.js (checkAppHealth,
checkAlertConditions, shouldSendAlert, attemptAutoRestart,
simulateRestart, aggregateHealthMetrics).

Modelling conventions: timestamps and response times are naturals
(milliseconds since epoch); JavaScript floating-point quantities
(uptimePercentage, the response-time moving average) are rationals;
nondeterministic inputs of a check cycle (the probe outcome, elapsed
time, generated incident id, whether the owning user record exists,
whether the simulated restart succeeds, whether the target has a URL,
the current time) are explicit parameters.
-/

namespace DeployWise

/-- Health states, from the healthStatus enum of the deployedAppSchema. -/
inductive HealthStatus where
  | up
  | down
  | warning
  | restarting
  | unknown
deriving DecidableEq, Repr

/-- Deployment states, from the deploymentStatus enum of the schema. -/
inductive DeploymentStatus where
  | pending
  | deploying
  | deployed
  | failed
  | stopped
  | updating
deriving DecidableEq, Repr

/-- Incident kinds, from the incidents.type enum of the schema. -/
inductive IncidentType where
  | downtime
  | slow_response
  | error_rate
  | ssl_issue
deriving DecidableEq, Repr

/-- Incident severities, from the incidents.severity enum of the schema. -/
inductive Severity where
  | low
  | medium
  | high
  | critical
deriving DecidableEq, Repr

/-- One entry of monitoring.incidents. The endTime, duration and
lastFailure fields are optional because the schema leaves them unset
until written; duration is an integer because the source computes
Math.floor of a difference of Date values. -/
structure Incident where
  id : String
  type : IncidentType
  severity : Severity
  startTime : Nat
  endTime : Option Nat
  duration : Option Int
  resolved : Bool
  description : String
deriving DecidableEq, Repr

/-- The monitoring.responseTime subdocument (current and the moving
average; the p95 field is never written by the engine and is omitted). -/
structure RespTime where
  current : Nat
  average : Rat
deriving DecidableEq, Repr

/-- The monitoring subdocument of the deployedAppSchema. -/
structure Monitoring where
  uptimePercentage : Rat
  responseTime : RespTime
  checksPerformed : Nat
  consecutiveFailures : Nat
  lastFailure : Option Nat
  incidents : List Incident
deriving DecidableEq, Repr

/-- The configuration subdocument: the fields the engine reads
(autoRestart, maxRestartAttempts, healthCheckPath, timeout). -/
structure Configuration where
  autoRestart : Bool
  maxRestartAttempts : Nat
  healthCheckPath : String
  timeout : Nat
deriving DecidableEq, Repr

/-- A deployed-app record: the fields of the deployedAppSchema the
monitoring engine reads or writes. -/
structure DeployedApp where
  healthStatus : HealthStatus
  monitoringEnabled : Bool
  lastCheck : Nat
  monitoring : Monitoring
  configuration : Configuration
  isActive : Bool
  deploymentStatus : DeploymentStatus
deriving DecidableEq, Repr

/-- Error codes distinguished by the catch branch of checkAppHealth:
ECONNREFUSED, ENOTFOUND and ETIMEDOUT are tested explicitly, every
other code falls through to the err.response check. -/
inductive ErrCode where
  | ECONNREFUSED
  | ENOTFOUND
  | ETIMEDOUT
  | OTHER
deriving DecidableEq, Repr

/-- Outcome of the axios request in checkAppHealth: either a response
(axios resolves for every HTTP status below 500 because of the
validateStatus option, and would also be the shape of any resolved
response), or a thrown error carrying a code and, when the server
answered, the response status (err.response.status). -/
inductive ProbeResult where
  | response (status : Nat)
  | failure (code : ErrCode) (respStatus : Option Nat)
deriving DecidableEq, Repr

/-- The status classification of checkAppHealth: the try branch maps a
response status in 200..399 to up, 400..499 to warning and anything
else to down; the catch branch maps ECONNREFUSED, ENOTFOUND and
ETIMEDOUT to down, an error whose response status is at least 500 to
down, and every other error to warning. -/
def classifyProbe : ProbeResult → HealthStatus
  | .response s =>
      if 200 ≤ s ∧ s < 400 then .up
      else if 400 ≤ s ∧ s < 500 then .warning
      else .down
  | .failure c rs =>
      if c == .ECONNREFUSED || c == .ENOTFOUND || c == .ETIMEDOUT then .down
      else match rs with
        | some s => if 500 ≤ s then .down else .warning
        | none => .warning

/-- deployedAppSchema.methods.updateHealthStatus: stores the status and
lastCheck, increments checksPerformed, updates the response-time
current value and moving average when a response time is given, resets
consecutiveFailures on up and increments it (stamping lastFailure) on
down or warning, and finally recomputes uptimePercentage as
(checksPerformed - consecutiveFailures) / max(checksPerformed, 1) * 100. -/
def updateHealthStatus (app : DeployedApp) (status : HealthStatus)
    (responseTime : Option Nat) (now : Nat) : DeployedApp :=
  let m0 := app.monitoring
  let checks := m0.checksPerformed + 1
  let m1 := { m0 with checksPerformed := checks }
  let m2 :=
    match responseTime with
    | some rt =>
        { m1 with responseTime :=
            { current := rt,
              average := (m1.responseTime.average * ((checks : Rat) - 1) + (rt : Rat)) / (checks : Rat) } }
    | none => m1
  let m3 :=
    match status with
    | .up => { m2 with consecutiveFailures := 0 }
    | .down => { m2 with consecutiveFailures := m2.consecutiveFailures + 1,
                         lastFailure := some now }
    | .warning => { m2 with consecutiveFailures := m2.consecutiveFailures + 1,
                            lastFailure := some now }
    | _ => m2
  let uptimeChecks : Rat := (checks : Rat) - (m3.consecutiveFailures : Rat)
  let m4 := { m3 with uptimePercentage := uptimeChecks / (max (checks : Rat) 1) * 100 }
  { app with healthStatus := status, lastCheck := now, monitoring := m4 }

/-- deployedAppSchema.methods.createIncident: pushes a new unresolved
incident with the given type, severity and description, stamping
startTime with the current time. The generated random id is a
parameter. -/
def createIncident (app : DeployedApp) (itype : IncidentType) (sev : Severity)
    (description : String) (id : String) (now : Nat) : DeployedApp :=
  let incident : Incident :=
    { id := id, type := itype, severity := sev, startTime := now,
      endTime := none, duration := none, resolved := false,
      description := description }
  { app with monitoring :=
      { app.monitoring with incidents := app.monitoring.incidents ++ [incident] } }

/-- Helper for resolveIncident: marks the first incident whose
identifier matches as resolved, stamping endTime and setting duration
to Math.floor((endTime - startTime) / 1000). -/
def resolveFirst (incidentId : String) (now : Nat) : List Incident → List Incident
  | [] => []
  | inc :: rest =>
      if inc.id = incidentId then
        { inc with resolved := true, endTime := some now,
                   duration := some (Int.fdiv ((now : Int) - (inc.startTime : Int)) 1000) } :: rest
      else inc :: resolveFirst incidentId now rest

/-- deployedAppSchema.methods.resolveIncident: looks the incident up by
identifier and, when found, marks it resolved with endTime and
duration in seconds; when no incident matches, the record is saved
unchanged. -/
def resolveIncident (app : DeployedApp) (incidentId : String) (now : Nat) : DeployedApp :=
  { app with monitoring :=
      { app.monitoring with incidents := resolveFirst incidentId now app.monitoring.incidents } }

/-- deployedAppSchema.methods.shouldAutoRestart: configuration.autoRestart
and consecutiveFailures at least the literal 3 and healthStatus down. -/
def shouldAutoRestart (app : DeployedApp) : Bool :=
  app.configuration.autoRestart
    && decide (3 ≤ app.monitoring.consecutiveFailures)
    && (app.healthStatus == .down)

/-- MonitoringService.shouldSendAlert: false when monitoring is
disabled; true on down with at least 3 consecutive failures; true on a
truthy response time above 5000 ms with at least 2 consecutive
failures; true on warning with at least 5 consecutive failures;
otherwise false. -/
def shouldSendAlert (app : DeployedApp) (status : HealthStatus)
    (responseTime : Option Nat) : Bool :=
  if !app.monitoringEnabled then false
  else if (status == .down) && decide (3 ≤ app.monitoring.consecutiveFailures) then true
  else if (match responseTime with
           | some rt => decide (0 < rt) && decide (5000 < rt)
           | none => false)
          && decide (2 ≤ app.monitoring.consecutiveFailures) then true
  else if (status == .warning) && decide (5 ≤ app.monitoring.consecutiveFailures) then true
  else false

/-- MonitoringService.checkAlertConditions, restricted to its effect on
the record: when the owning user exists and shouldSendAlert returns
true, notifications are dispatched (external effect) and, when
consecutiveFailures equals 1 and the status is down, a downtime
incident of severity high is created. -/
def checkAlertConditions (app : DeployedApp) (status : HealthStatus)
    (responseTime : Option Nat) (err : Option String) (userExists : Bool)
    (incidentId : String) (now : Nat) : DeployedApp :=
  if !userExists then app
  else if shouldSendAlert app status responseTime then
    if (app.monitoring.consecutiveFailures == 1) && (status == .down) then
      createIncident app .downtime .high
        ("Application is down: " ++ err.getD "Unknown error") incidentId now
    else app
  else app

/-- MonitoringService.simulateRestart: resets consecutiveFailures,
marks the app up and stamps lastCheck with the current time. -/
def simulateRestart (app : DeployedApp) (now : Nat) : DeployedApp :=
  { app with healthStatus := .up, lastCheck := now,
             monitoring := { app.monitoring with consecutiveFailures := 0 } }

/-- MonitoringService.attemptAutoRestart: sets healthStatus to
restarting, then runs the (simulated) restart; on success the record
ends as simulateRestart leaves it, on failure healthStatus is set back
to down. Whether the restart call succeeds is a parameter. -/
def attemptAutoRestart (app : DeployedApp) (restartSucceeds : Bool) (now : Nat) : DeployedApp :=
  let restarting := { app with healthStatus := HealthStatus.restarting }
  if restartSucceeds then simulateRestart restarting now
  else { restarting with healthStatus := .down }

/-- MonitoringService.checkAppHealth as a function of the record and
the nondeterministic inputs of one cycle. Returns the updated record
together with whether an auto-restart was attempted. When the app has
no URL the method returns before touching the record. -/
def checkAppHealth (app : DeployedApp) (probe : ProbeResult) (elapsed : Nat)
    (err : Option String) (userExists : Bool) (incidentId : String)
    (restartSucceeds : Bool) (hasUrl : Bool) (now : Nat) : DeployedApp × Bool :=
  if !hasUrl then (app, false)
  else
    let status := classifyProbe probe
    let a1 := updateHealthStatus app status (some elapsed) now
    let a2 := checkAlertConditions a1 status (some elapsed) err userExists incidentId now
    if shouldAutoRestart a2 then (attemptAutoRestart a2 restartSucceeds now, true)
    else (a2, false)

/-- The nondeterministic inputs of one check cycle for one target. -/
structure CycleInput where
  probe : ProbeResult
  elapsed : Nat
  err : Option String
  userExists : Bool
  incidentId : String
  restartSucceeds : Bool
  hasUrl : Bool
  now : Nat
deriving Repr

/-- One check cycle: the record component of checkAppHealth. -/
def checkCycle (app : DeployedApp) (i : CycleInput) : DeployedApp :=
  (checkAppHealth app i.probe i.elapsed i.err i.userExists i.incidentId
     i.restartSucceeds i.hasUrl i.now).1

/-- A sequence of check cycles applied in order. -/
def runCycles (app : DeployedApp) (l : List CycleInput) : DeployedApp :=
  l.foldl checkCycle app

/-- MonitoringService.aggregateHealthMetrics, per record: for an active
deployed app it overwrites uptimePercentage with
Math.max(0, 100 - consecutiveFailures * 2); other records are not
selected by the query and stay unchanged. -/
def aggregateHealthMetrics (app : DeployedApp) : DeployedApp :=
  let estimatedUptime : Rat := max 0 (100 - (app.monitoring.consecutiveFailures : Rat) * 2)
  if app.isActive && (app.deploymentStatus == .deployed) then
    { app with monitoring := { app.monitoring with uptimePercentage := estimatedUptime } }
  else app

/-- Number of unresolved downtime incidents in a list. -/
def unresolvedDowntime (l : List Incident) : Nat :=
  (l.filter (fun i => !i.resolved && (i.type == .downtime))).length

/-- A record with the schema defaults: healthStatus unknown, monitoring
enabled, 100 percent uptime, zero counters, no incidents, autoRestart
on with maxRestartAttempts 3, active and deployed. -/
def initApp : DeployedApp :=
  { healthStatus := .unknown,
    monitoringEnabled := true,
    lastCheck := 0,
    monitoring :=
      { uptimePercentage := 100,
        responseTime := { current := 0, average := 0 },
        checksPerformed := 0,
        consecutiveFailures := 0,
        lastFailure := none,
        incidents := [] },
    configuration :=
      { autoRestart := true, maxRestartAttempts := 3,
        healthCheckPath := "/", timeout := 30 },
    isActive := true,
    deploymentStatus := .deployed }

/-- A cycle whose probe fails with connection refused. -/
def downInput : CycleInput :=
  { probe := .failure .ECONNREFUSED none, elapsed := 50,
    err := some "connection refused", userExists := true,
    incidentId := "inc_gen", restartSucceeds := true, hasUrl := true,
    now := 1000 }

/-- A cycle whose probe answers HTTP 200. -/
def upInput : CycleInput :=
  { probe := .response 200, elapsed := 30, err := none, userExists := true,
    incidentId := "inc_gen2", restartSucceeds := true, hasUrl := true,
    now := 3010 }

/-- An open downtime incident. -/
def openInc : Incident :=
  { id := "inc1", type := .downtime, severity := .high, startTime := 10,
    endTime := none, duration := none, resolved := false,
    description := "Application is down: probe" }

/-- A record currently down, with two consecutive failures and one open
downtime incident. -/
def downApp : DeployedApp :=
  { initApp with healthStatus := .down,
                 monitoring := { initApp.monitoring with consecutiveFailures := 2,
                                                         checksPerformed := 5,
                                                         incidents := [openInc] } }

/-- A record currently down with two consecutive failures whose
configured maxRestartAttempts is 5 rather than the default 3. -/
def restartPreApp : DeployedApp :=
  { initApp with healthStatus := .down,
                 monitoring := { initApp.monitoring with consecutiveFailures := 2,
                                                         checksPerformed := 2 },
                 configuration := { initApp.configuration with maxRestartAttempts := 5 } }

/-- The record of restartPreApp after one more failed check. -/
def restartMidApp : DeployedApp :=
  { restartPreApp with monitoring := { restartPreApp.monitoring with consecutiveFailures := 3,
                                                                     checksPerformed := 3 } }

/-- A default record with three consecutive failures. -/
def appCf3 : DeployedApp :=
  { initApp with monitoring := { initApp.monitoring with consecutiveFailures := 3 } }

/-- A default record with two consecutive failures. -/
def appCf2 : DeployedApp :=
  { initApp with monitoring := { initApp.monitoring with consecutiveFailures := 2 } }

/-- updateHealthStatus increments checksPerformed by one. -/
theorem updateHealthStatus_checksPerformed (app : DeployedApp) (status : HealthStatus)
    (rt : Option Nat) (now : Nat) :
    (updateHealthStatus app status rt now).monitoring.checksPerformed
      = app.monitoring.checksPerformed + 1 := by
  cases status <;> cases rt <;> rfl

/-- Effect of updateHealthStatus on consecutiveFailures, by status. -/
theorem updateHealthStatus_consecutiveFailures (app : DeployedApp) (status : HealthStatus)
    (rt : Option Nat) (now : Nat) :
    (updateHealthStatus app status rt now).monitoring.consecutiveFailures
      = (match status with
         | .up => 0
         | .down => app.monitoring.consecutiveFailures + 1
         | .warning => app.monitoring.consecutiveFailures + 1
         | .restarting => app.monitoring.consecutiveFailures
         | .unknown => app.monitoring.consecutiveFailures) := by
  cases status <;> cases rt <;> rfl

/-- Effect of updateHealthStatus on lastFailure, by status. -/
theorem updateHealthStatus_lastFailure (app : DeployedApp) (status : HealthStatus)
    (rt : Option Nat) (now : Nat) :
    (updateHealthStatus app status rt now).monitoring.lastFailure
      = (match status with
         | .down => some now
         | .warning => some now
         | _ => app.monitoring.lastFailure) := by
  cases status <;> cases rt <;> rfl

/-- updateHealthStatus does not touch the incidents list. -/
theorem updateHealthStatus_incidents (app : DeployedApp) (status : HealthStatus)
    (rt : Option Nat) (now : Nat) :
    (updateHealthStatus app status rt now).monitoring.incidents
      = app.monitoring.incidents := by
  cases status <;> cases rt <;> rfl

/-- The uptime percentage written by updateHealthStatus, in terms of
the updated counters. -/
theorem updateHealthStatus_uptimePercentage (app : DeployedApp) (status : HealthStatus)
    (rt : Option Nat) (now : Nat) :
    (updateHealthStatus app status rt now).monitoring.uptimePercentage
      = (((app.monitoring.checksPerformed + 1 : Nat) : Rat)
          - ((updateHealthStatus app status rt now).monitoring.consecutiveFailures : Rat))
        / max (((app.monitoring.checksPerformed + 1 : Nat) : Rat)) 1 * 100 := by
  cases status <;> cases rt <;> rfl

/-- With exactly one consecutive failure recorded, a down observation
never passes shouldSendAlert. -/
theorem shouldSendAlert_cf_one (app : DeployedApp) (rt : Option Nat)
    (h : app.monitoring.consecutiveFailures = 1) :
    shouldSendAlert app .down rt = false := by
  cases hm : app.monitoringEnabled <;> rcases rt with _ | t <;>
    simp [shouldSendAlert, h, hm]

/-- checkAlertConditions never changes the incidents list: the incident
creation branch requires consecutiveFailures to equal 1 while
shouldSendAlert demands at least 2 for every alerting condition on a
down status. -/
theorem checkAlertConditions_incidents (app : DeployedApp) (status : HealthStatus)
    (rt : Option Nat) (err : Option String) (u : Bool) (id : String) (now : Nat) :
    (checkAlertConditions app status rt err u id now).monitoring.incidents
      = app.monitoring.incidents := by
  unfold checkAlertConditions
  split
  · rfl
  · split
    next halert =>
      split
      next hcond =>
        exfalso
        have hcf : app.monitoring.consecutiveFailures = 1 ∧ status = .down := by
          simpa [Bool.and_eq_true, beq_iff_eq] using hcond
        rw [hcf.2] at halert
        rw [shouldSendAlert_cf_one app rt hcf.1] at halert
        exact Bool.false_ne_true halert
      · rfl
    · rfl

/-- attemptAutoRestart does not touch the incidents list. -/
theorem attemptAutoRestart_incidents (app : DeployedApp) (rs : Bool) (now : Nat) :
    (attemptAutoRestart app rs now).monitoring.incidents = app.monitoring.incidents := by
  cases rs <;> simp [attemptAutoRestart, simulateRestart]

/-- One check cycle never changes the incidents list. -/
theorem checkCycle_incidents (app : DeployedApp) (i : CycleInput) :
    (checkCycle app i).monitoring.incidents = app.monitoring.incidents := by
  simp only [checkCycle, checkAppHealth]
  split
  · rfl
  · split <;>
      simp [attemptAutoRestart_incidents, checkAlertConditions_incidents,
            updateHealthStatus_incidents]

/-- No sequence of check cycles changes the incidents list. -/
theorem runCycles_incidents (app : DeployedApp) (l : List CycleInput) :
    (runCycles app l).monitoring.incidents = app.monitoring.incidents := by
  induction l generalizing app with
  | nil => rfl
  | cons i t ih =>
      have hstep : runCycles app (i :: t) = runCycles (checkCycle app i) t := rfl
      rw [hstep, ih, checkCycle_incidents]

/-- Claim C1: a check cycle in which a target transitions into down never
appends a downtime incident. In the code the creation branch of
checkAlertConditions requires consecutiveFailures to equal 1 while
shouldSendAlert requires at least 3 for a down status, so no cycle ever
changes the incidents list; in particular the fresh record transitions
into down with one consecutive failure and an empty incidents list. -/
theorem C1_down_transition_opens_no_incident :
    (∀ (app : DeployedApp) (i : CycleInput),
      (checkCycle app i).monitoring.incidents = app.monitoring.incidents)
    ∧ (checkCycle initApp downInput).healthStatus = HealthStatus.down
    ∧ (checkCycle initApp downInput).monitoring.consecutiveFailures = 1
    ∧ (checkCycle initApp downInput).monitoring.incidents = [] := by
  refine ⟨fun app i => checkCycle_incidents app i, ?_, ?_, ?_⟩ <;> decide

/-- Claim C3: under any sequence of check cycles, a record that starts with
at most one unresolved downtime incident keeps at most one; indeed the
incidents list is never changed by a cycle, so a down observation while
an incident is open never appends a second one. -/
theorem C3_at_most_one_unresolved_downtime (app : DeployedApp) (l : List CycleInput)
    (h : unresolvedDowntime app.monitoring.incidents ≤ 1) :
    unresolvedDowntime (runCycles app l).monitoring.incidents ≤ 1
    ∧ (runCycles app l).monitoring.incidents = app.monitoring.incidents := by
  refine ⟨?_, runCycles_incidents app l⟩
  rw [runCycles_incidents]
  exact h

/-- Witness for C3 at a concrete record with an open downtime incident
and a cycle containing a further down observation. -/
theorem C3_at_most_one_unresolved_downtime_witness :
    unresolvedDowntime (runCycles downApp [downInput, upInput]).monitoring.incidents ≤ 1
    ∧ (runCycles downApp [downInput, upInput]).monitoring.incidents
        = downApp.monitoring.incidents :=
  C3_at_most_one_unresolved_downtime downApp [downInput, upInput] (by decide)

/-- Claim C5: updateHealthStatus resets consecutiveFailures to 0 on up,
increments it by exactly 1 and stamps lastFailure on down or warning,
and leaves both untouched for every other status. -/
theorem C5_updateHealthStatus_failure_counter (app : DeployedApp) (status : HealthStatus)
    (rt : Option Nat) (now : Nat) :
    ((updateHealthStatus app status rt now).monitoring.consecutiveFailures
      = (match status with
         | .up => 0
         | .down => app.monitoring.consecutiveFailures + 1
         | .warning => app.monitoring.consecutiveFailures + 1
         | .restarting => app.monitoring.consecutiveFailures
         | .unknown => app.monitoring.consecutiveFailures))
    ∧ ((updateHealthStatus app status rt now).monitoring.lastFailure
      = (match status with
         | .down => some now
         | .warning => some now
         | _ => app.monitoring.lastFailure)) :=
  ⟨updateHealthStatus_consecutiveFailures app status rt now,
   updateHealthStatus_lastFailure app status rt now⟩

/-- Claim C8: a successful remediation attempt ends with consecutiveFailures
0, healthStatus up and lastCheck stamped with the current time; a
failed one sets healthStatus back to down, never to unknown. -/
theorem C8_autoRestart_outcomes (app : DeployedApp) (now : Nat) :
    ((attemptAutoRestart app true now).monitoring.consecutiveFailures = 0
      ∧ (attemptAutoRestart app true now).healthStatus = HealthStatus.up
      ∧ (attemptAutoRestart app true now).lastCheck = now)
    ∧ ((attemptAutoRestart app false now).healthStatus = HealthStatus.down
      ∧ (attemptAutoRestart app false now).healthStatus ≠ HealthStatus.unknown) := by
  refine ⟨⟨rfl, rfl, rfl⟩, rfl, ?_⟩
  show HealthStatus.down ≠ HealthStatus.unknown
  decide

/-- Claim C10: for an active deployed record, the aggregation job overwrites
uptimePercentage with max 0 (100 - 2 * consecutiveFailures), a value
independent of the previously stored per-check uptime. -/
theorem C10_aggregate_overwrites_uptime (app : DeployedApp)
    (hA : app.isActive = true) (hD : app.deploymentStatus = DeploymentStatus.deployed) :
    (aggregateHealthMetrics app).monitoring.uptimePercentage
      = max 0 (100 - 2 * (app.monitoring.consecutiveFailures : Rat))
    ∧ (∀ q : Rat,
        (aggregateHealthMetrics
            { app with monitoring :=
                { app.monitoring with uptimePercentage := q } }).monitoring.uptimePercentage
          = (aggregateHealthMetrics app).monitoring.uptimePercentage) := by
  constructor
  · simp only [aggregateHealthMetrics, hA, hD]
    norm_num
    congr 1
    ring
  · intro q
    simp [aggregateHealthMetrics, hA, hD]

/-- Witness for C10 at a concrete record with two consecutive failures. -/
theorem C10_aggregate_overwrites_uptime_witness :
    (aggregateHealthMetrics appCf2).monitoring.uptimePercentage
      = max 0 (100 - 2 * (appCf2.monitoring.consecutiveFailures : Rat)) :=
  (C10_aggregate_overwrites_uptime appCf2 rfl rfl).1

/-- Claim C2: shouldSendAlert is false when monitoring is disabled and
otherwise true exactly when the status is down with at least 3
consecutive failures, or the response time exceeds 5000 ms with at
least 2, or the status is warning with at least 5; in particular a
down observation alerts at 3 consecutive failures and not at 2. -/
theorem C2_shouldSendAlert_characterisation :
    (∀ (app : DeployedApp) (status : HealthStatus) (rt : Option Nat),
      shouldSendAlert app status rt
        = (app.monitoringEnabled
            && (((status == HealthStatus.down)
                  && decide (3 ≤ app.monitoring.consecutiveFailures))
                || ((match rt with
                     | some t => decide (5000 < t)
                     | none => false)
                    && decide (2 ≤ app.monitoring.consecutiveFailures))
                || ((status == HealthStatus.warning)
                    && decide (5 ≤ app.monitoring.consecutiveFailures)))))
    ∧ (∀ app : DeployedApp, app.monitoringEnabled = true →
        app.monitoring.consecutiveFailures = 3 →
        shouldSendAlert app HealthStatus.down none = true)
    ∧ (∀ app : DeployedApp, app.monitoring.consecutiveFailures = 2 →
        shouldSendAlert app HealthStatus.down none = false) := by
  refine ⟨?_, ?_, ?_⟩
  · intro app status rt
    cases hm : app.monitoringEnabled <;> cases status <;> rcases rt with _ | t <;>
        simp [shouldSendAlert, hm] <;>
      by_cases h3 : 3 ≤ app.monitoring.consecutiveFailures <;>
        by_cases h2 : 2 ≤ app.monitoring.consecutiveFailures <;>
        by_cases h5 : 5 ≤ app.monitoring.consecutiveFailures <;>
        by_cases ht : 5000 < t <;>
        simp [h3, h2, h5, ht] <;> omega
  · intro app hme h3
    simp [shouldSendAlert, hme, h3]
  · intro app h2
    simp [shouldSendAlert, h2]

/-- Witness for C2: a down observation with exactly 3 consecutive
failures alerts, with exactly 2 it does not. -/
theorem C2_shouldSendAlert_characterisation_witness :
    shouldSendAlert appCf3 HealthStatus.down none = true
    ∧ shouldSendAlert appCf2 HealthStatus.down none = false :=
  ⟨C2_shouldSendAlert_characterisation.2.1 appCf3 rfl rfl,
   C2_shouldSendAlert_characterisation.2.2 appCf2 rfl⟩

/-- Claim C4: a check cycle that takes a down target back up leaves the
open downtime incident exactly as it was, unresolved; resolveIncident,
which would stamp endTime and a duration in whole seconds, is never
invoked by any check cycle. The last conjunct evaluates resolveIncident
itself on the same record, showing the resolution the claim describes
would have produced. -/
theorem C4_recovery_leaves_incident_unresolved :
    (checkCycle downApp upInput).healthStatus = HealthStatus.up
    ∧ downApp.healthStatus = HealthStatus.down
    ∧ (checkCycle downApp upInput).monitoring.incidents = [openInc]
    ∧ openInc.type = IncidentType.downtime
    ∧ openInc.resolved = false
    ∧ (resolveIncident downApp "inc1" 3010).monitoring.incidents
        = [{ openInc with resolved := true, endTime := some 3010, duration := some 3 }] := by
  decide

/-- Lower and upper bound of the per-check uptime expression. -/
theorem uptime_bounds (c f : Nat) (hf : f ≤ c) (hc : 1 ≤ c) :
    0 ≤ ((c : Rat) - (f : Rat)) / (c : Rat) * 100
    ∧ ((c : Rat) - (f : Rat)) / (c : Rat) * 100 ≤ 100 := by
  have hc0 : (0 : Rat) < (c : Rat) := by exact_mod_cast hc
  have hnum : (0 : Rat) ≤ (c : Rat) - (f : Rat) := by
    have : (f : Rat) ≤ (c : Rat) := by exact_mod_cast hf
    linarith
  constructor
  · positivity
  · have hle1 : ((c : Rat) - (f : Rat)) / (c : Rat) ≤ 1 := by
      rw [div_le_one hc0]
      linarith
    nlinarith

/-- updateHealthStatus preserves the counter invariant that
consecutiveFailures never exceeds checksPerformed. -/
theorem updateHealthStatus_cf_le (app : DeployedApp) (status : HealthStatus)
    (rt : Option Nat) (now : Nat)
    (h : app.monitoring.consecutiveFailures ≤ app.monitoring.checksPerformed) :
    (updateHealthStatus app status rt now).monitoring.consecutiveFailures
      ≤ (updateHealthStatus app status rt now).monitoring.checksPerformed := by
  rw [updateHealthStatus_consecutiveFailures, updateHealthStatus_checksPerformed]
  cases status <;> simp <;> omega

/-- Claim C6: after updateHealthStatus the stored uptimePercentage
equals (checksPerformed - consecutiveFailures) / checksPerformed * 100
over the post-update counters, and under the counter invariant
consecutiveFailures at most checksPerformed (which holds in every
reachable record and is preserved, see updateHealthStatus_cf_le) the
value lies in the interval from 0 to 100. -/
theorem C6_uptime_after_update (app : DeployedApp) (status : HealthStatus)
    (rt : Option Nat) (now : Nat) :
    ((updateHealthStatus app status rt now).monitoring.uptimePercentage
      = (((updateHealthStatus app status rt now).monitoring.checksPerformed : Rat)
          - ((updateHealthStatus app status rt now).monitoring.consecutiveFailures : Rat))
        / ((updateHealthStatus app status rt now).monitoring.checksPerformed : Rat) * 100)
    ∧ (app.monitoring.consecutiveFailures ≤ app.monitoring.checksPerformed →
        0 ≤ (updateHealthStatus app status rt now).monitoring.uptimePercentage
        ∧ (updateHealthStatus app status rt now).monitoring.uptimePercentage ≤ 100) := by
  have hch := updateHealthStatus_checksPerformed app status rt now
  have hmax : max (((app.monitoring.checksPerformed + 1 : Nat) : Rat)) 1
      = ((app.monitoring.checksPerformed + 1 : Nat) : Rat) := by
    apply max_eq_left
    exact_mod_cast Nat.succ_le_succ (Nat.zero_le _)
  have heq : (updateHealthStatus app status rt now).monitoring.uptimePercentage
      = (((updateHealthStatus app status rt now).monitoring.checksPerformed : Rat)
          - ((updateHealthStatus app status rt now).monitoring.consecutiveFailures : Rat))
        / ((updateHealthStatus app status rt now).monitoring.checksPerformed : Rat) * 100 := by
    rw [updateHealthStatus_uptimePercentage, hch, hmax]
  refine ⟨heq, fun h => ?_⟩
  have hfle := updateHealthStatus_cf_le app status rt now h
  have h1 : 1 ≤ (updateHealthStatus app status rt now).monitoring.checksPerformed := by
    rw [hch]
    omega
  rw [heq]
  exact uptime_bounds _ _ hfle h1

/-- Witness for C6 at the fresh record observed down once. -/
theorem C6_uptime_after_update_witness :
    0 ≤ (updateHealthStatus initApp HealthStatus.down (some 100) 5).monitoring.uptimePercentage
    ∧ (updateHealthStatus initApp HealthStatus.down (some 100) 5).monitoring.uptimePercentage
        ≤ 100 :=
  (C6_uptime_after_update initApp HealthStatus.down (some 100) 5).2 (by decide)

/-- Claim C7 counterexample: with maxRestartAttempts configured to 5, a
down record with 3 consecutive failures already triggers a restart
(shouldAutoRestart compares against the literal 3, not the configured
value), and a full check cycle on its predecessor record attempts the
restart; so restarts are not governed by the configured threshold. -/
theorem C7_threshold_counterexample :
    shouldAutoRestart restartMidApp = true
    ∧ restartMidApp.configuration.autoRestart = true
    ∧ restartMidApp.healthStatus = HealthStatus.down
    ∧ restartMidApp.monitoring.consecutiveFailures
        < restartMidApp.configuration.maxRestartAttempts
    ∧ (checkAppHealth restartPreApp (.failure .ECONNREFUSED none) 50
        (some "refused") true "i1" true true 100).2 = true := by
  decide

/-- Claim C7 amended: a check cycle attempts an automatic restart
exactly when the target has a URL and, after the state update,
autoRestart is enabled, the status is down and consecutiveFailures is
at least the fixed literal 3; the configured maxRestartAttempts value
is never consulted. -/
theorem C7_restart_condition_fixed_threshold :
    (∀ app : DeployedApp, shouldAutoRestart app
        = (app.configuration.autoRestart
            && decide (3 ≤ app.monitoring.consecutiveFailures)
            && (app.healthStatus == HealthStatus.down)))
    ∧ (∀ (app : DeployedApp) (n : Nat),
        shouldAutoRestart
            { app with configuration := { app.configuration with maxRestartAttempts := n } }
          = shouldAutoRestart app)
    ∧ (∀ (app : DeployedApp) (probe : ProbeResult) (elapsed : Nat) (err : Option String)
         (u : Bool) (id : String) (rs : Bool) (url : Bool) (now : Nat),
        (checkAppHealth app probe elapsed err u id rs url now).2
          = (url && shouldAutoRestart
              (checkAlertConditions
                (updateHealthStatus app (classifyProbe probe) (some elapsed) now)
                (classifyProbe probe) (some elapsed) err u id now))) := by
  refine ⟨fun app => rfl, fun app n => rfl, ?_⟩
  intro app probe elapsed err u id rs url now
  cases url <;>
    cases h : shouldAutoRestart
      (checkAlertConditions (updateHealthStatus app (classifyProbe probe) (some elapsed) now)
        (classifyProbe probe) (some elapsed) err u id now) <;>
    simp [checkAppHealth, h]

/-- Claim C9: probe classification by case: HTTP 200-399 is up, 400-499
is warning, 500 and above is down (a 5xx surfaces as a thrown error
carrying the response status, and a plain response of 500 or more
classifies down as well); connection refused, DNS failure and timeout
are down; every other transport error is warning. The classification is
a total function, so the probe never propagates an exception. -/
theorem C9_probe_classification :
    (∀ s : Nat, 200 ≤ s → s < 400 → classifyProbe (.response s) = HealthStatus.up)
    ∧ (∀ s : Nat, 400 ≤ s → s < 500 → classifyProbe (.response s) = HealthStatus.warning)
    ∧ (∀ s : Nat, 500 ≤ s → classifyProbe (.response s) = HealthStatus.down)
    ∧ (∀ rs : Option Nat,
        classifyProbe (.failure .ECONNREFUSED rs) = HealthStatus.down
        ∧ classifyProbe (.failure .ENOTFOUND rs) = HealthStatus.down
        ∧ classifyProbe (.failure .ETIMEDOUT rs) = HealthStatus.down)
    ∧ (∀ s : Nat, 500 ≤ s → classifyProbe (.failure .OTHER (some s)) = HealthStatus.down)
    ∧ (∀ s : Nat, s < 500 → classifyProbe (.failure .OTHER (some s)) = HealthStatus.warning)
    ∧ classifyProbe (.failure .OTHER none) = HealthStatus.warning := by
  refine ⟨?_, ?_, ?_, ?_, ?_, ?_, rfl⟩
  · intro s h1 h2
    simp only [classifyProbe]
    rw [if_pos ⟨h1, h2⟩]
  · intro s h1 h2
    simp only [classifyProbe]
    rw [if_neg (by omega), if_pos ⟨h1, h2⟩]
  · intro s h
    simp only [classifyProbe]
    rw [if_neg (by omega), if_neg (by omega)]
  · intro rs
    exact ⟨rfl, rfl, rfl⟩
  · intro s h
    show (if 500 ≤ s then HealthStatus.down else HealthStatus.warning) = HealthStatus.down
    rw [if_pos h]
  · intro s h
    show (if 500 ≤ s then HealthStatus.down else HealthStatus.warning) = HealthStatus.warning
    rw [if_neg (by omega)]

/-- Witness for C9 across the classification cases. -/
theorem C9_probe_classification_witness :
    classifyProbe (.response 250) = HealthStatus.up
    ∧ classifyProbe (.response 404) = HealthStatus.warning
    ∧ classifyProbe (.response 503) = HealthStatus.down
    ∧ classifyProbe (.failure .ECONNREFUSED none) = HealthStatus.down
    ∧ classifyProbe (.failure .OTHER (some 502)) = HealthStatus.down
    ∧ classifyProbe (.failure .OTHER (some 400)) = HealthStatus.warning := by
  obtain ⟨h1, h2, h3, h4, h5, h6, h7⟩ := C9_probe_classification
  exact ⟨h1 250 (by decide) (by decide), h2 404 (by decide) (by decide),
         h3 503 (by decide), (h4 none).1, h5 502 (by decide), h6 400 (by decide)⟩

end DeployWise
